import Mathlib

/-!
Verification of the request-execution core of the `huawei-dongle-api` crate:
a shallow Lean embedding of the error taxonomy (`src/error.rs`), session
state machine (`src/session.rs`), retry engine (`src/retry.rs`), request
pipeline (`src/client.rs`) and the authentication layer
(`src/auth.rs`, `src/api/auth.rs`, `src/models/auth.rs`), together with
theorems settling the specification claims about them.

Modelling conventions:
* `f64` arithmetic in the retry-delay computation is modelled by exact
  rationals (`ℚ`); `as u64` casts of non-negative floats are modelled by
  `Int.toNat ∘ Int.floor` (truncation toward zero, negative saturating to 0).
* Asynchronous effects are modelled by explicit state passing over
  `SessionState`; the HTTP transport is an explicit environment value
  (response status, parsed body, headers) supplied to each operation.
* XML bodies are modelled at the parser-output level: a body either parses
  to a device `<error><code>..</code></error>` envelope (`Option ApiError`)
  or it does not; the quick-xml event stream of the token endpoint is
  modelled as a list of events, with the reader's `trim_text(true)`
  configuration (trim every text node, skip nodes empty after trimming)
  embedded in the reading loop.
-/

namespace Dongle

/-- API error codes recognised by the device payload parser
(`models/enums.rs`, `ApiErrorCode`). -/
inductive ApiErrorCode where
  | WrongToken
  | CsrfTokenInvalid
  | WrongSessionToken
  | UsernameWrong
  | PasswordWrong
  | AlreadyLoggedIn
  | UsernameOrPasswordWrong
  | TooManyLoginAttempts
  | PasswordChangeRequired
  | SystemUnknown
  | SystemNoSupport
  | NoRights
  | SystemBusy
  | FormatError
  deriving DecidableEq, Repr

/-- `ApiErrorCode::as_int` (`models/enums.rs`). -/
def ApiErrorCode.as_int : ApiErrorCode → Int
  | .WrongToken => 125001
  | .CsrfTokenInvalid => 125002
  | .WrongSessionToken => 125003
  | .UsernameWrong => 108001
  | .PasswordWrong => 108002
  | .AlreadyLoggedIn => 108003
  | .UsernameOrPasswordWrong => 108006
  | .TooManyLoginAttempts => 108007
  | .PasswordChangeRequired => 115002
  | .SystemUnknown => 100001
  | .SystemNoSupport => 100002
  | .NoRights => 100003
  | .SystemBusy => 100004
  | .FormatError => 100005

/-- `ApiErrorCode::is_csrf_error` (`models/enums.rs`). -/
def ApiErrorCode.is_csrf_error : ApiErrorCode → Bool
  | .CsrfTokenInvalid => true
  | .WrongToken => true
  | _ => false

/-- `ApiErrorCode::is_session_error` (`models/enums.rs`). -/
def ApiErrorCode.is_session_error : ApiErrorCode → Bool
  | .WrongSessionToken => true
  | _ => false

/-- `Display for ApiErrorCode` (`models/enums.rs`). -/
def ApiErrorCode.displayText : ApiErrorCode → String
  | .WrongToken => "Wrong token"
  | .CsrfTokenInvalid => "CSRF token invalid"
  | .WrongSessionToken => "Wrong session token"
  | .UsernameWrong => "Username wrong"
  | .PasswordWrong => "Password wrong"
  | .AlreadyLoggedIn => "Already logged in"
  | .UsernameOrPasswordWrong => "Username or password wrong"
  | .TooManyLoginAttempts => "Too many login attempts"
  | .PasswordChangeRequired => "Password change required"
  | .SystemUnknown => "System unknown error"
  | .SystemNoSupport => "System does not support this operation"
  | .NoRights => "No rights (login required)"
  | .SystemBusy => "System busy"
  | .FormatError => "Format error"

/-- Parsed device error envelope `<error><code>..</code><message/></error>`
(`models/common.rs`, `ApiError`). -/
structure ApiError where
  code : ApiErrorCode
  message : Option String
  deriving DecidableEq, Repr

/-- `ApiError::is_csrf_error` (`models/common.rs`). -/
def ApiError.is_csrf_error (e : ApiError) : Bool := e.code.is_csrf_error

/-- `ApiError::is_session_error` (`models/common.rs`). -/
def ApiError.is_session_error (e : ApiError) : Bool := e.code.is_session_error

/-- `ApiError::error_message` (`models/common.rs`): the message field if
present and non-empty, else the code's display text. -/
def ApiError.error_message (e : ApiError) : String :=
  match e.message with
  | some msg => if msg ≠ "" then msg else e.code.displayText
  | none => e.code.displayText

/-- The crate error type (`error.rs`, `enum Error`).  The `Http` variant
abstracts `reqwest::Error` by the three observations `is_retryable` makes of
it: `is_timeout()`, `is_connect()`, and `status()`.  The `Xml`, `QuickXml`
and `Url` wrapper variants are collapsed to payload-free constructors. -/
inductive Error where
  | Http (isTimeout : Bool) (isConnect : Bool) (status : Option Nat)
  | Xml
  | QuickXml
  | Url
  | Authentication (message : String)
  | LoginRequired
  | InvalidUsername
  | InvalidPassword
  | InvalidCredentials
  | TooManyLoginAttempts
  | AlreadyLoggedIn
  | CsrfTokenInvalid
  | SessionTokenInvalid
  | Api (code : Int) (message : String)
  | Session (message : String)
  | Config (message : String)
  | Generic (message : String)
  deriving DecidableEq, Repr

/-- `Error::is_retryable` (`error.rs` lines 132-157). -/
def Error.is_retryable : Error → Bool
  | .Http isTimeout isConnect status =>
      if isTimeout || isConnect then true
      else match status with
        | some st => !(400 ≤ st ∧ st ≤ 499 : Bool)
        | none => true
  | .Api code _ => 500 ≤ code ∧ code < 600
  | .Session _ => true
  | .LoginRequired => false
  | .InvalidUsername => false
  | .InvalidPassword => false
  | .InvalidCredentials => false
  | .TooManyLoginAttempts => false
  | .AlreadyLoggedIn => false
  | .CsrfTokenInvalid => true
  | .SessionTokenInvalid => true
  | _ => false

/-- `Error::authentication` (`error.rs`). -/
def Error.authentication (message : String) : Error := .Authentication message

/-- `Error::api` (`error.rs` lines 167-181): map the recognised device codes
to their dedicated variants, anything else to the generic `Api` variant. -/
def Error.api (code : Int) (message : String) : Error :=
  if code = 100003 then .LoginRequired
  else if code = 125002 then .CsrfTokenInvalid
  else if code = 125003 then .SessionTokenInvalid
  else if code = 108001 then .InvalidUsername
  else if code = 108002 then .InvalidPassword
  else if code = 108003 then .AlreadyLoggedIn
  else if code = 108006 then .InvalidCredentials
  else if code = 108007 then .TooManyLoginAttempts
  else .Api code message

/-- `Error::session` (`error.rs`). -/
def Error.mkSession (message : String) : Error := .Session message

/-- `Error::generic` (`error.rs`). -/
def Error.generic (message : String) : Error := .Generic message

/-- The eight device codes `Error::api` recognises and maps to dedicated
variants (`error.rs`, `mod error_codes`). -/
def recognizedCodes : List Int :=
  [100003, 125002, 125003, 108001, 108002, 108003, 108006, 108007]

/-- `SessionState` (`session.rs` lines 11-21); `last_auth_time` timestamps
are modelled as abstract `Nat` instants. -/
structure SessionState where
  csrf_token : Option String
  is_authenticated : Bool
  username : Option String
  last_auth_time : Option Nat
  deriving DecidableEq, Repr

/-- `SessionState::default()`: all fields empty/false. -/
def SessionState.default : SessionState :=
  { csrf_token := none, is_authenticated := false,
    username := none, last_auth_time := none }

/-- `SessionManager::clear_session` (`session.rs` lines 197-204). -/
def SessionState.clear_session (_ : SessionState) : SessionState :=
  { csrf_token := none, is_authenticated := false,
    username := none, last_auth_time := none }

/-- `SessionManager::invalidate_session` (`session.rs` lines 212-215):
delegates to `clear_session`. -/
def SessionState.invalidate_session (s : SessionState) : SessionState :=
  s.clear_session

/-- `SessionManager::mark_authenticated` (`session.rs` lines 218-224):
`now` models `chrono::Utc::now()`. -/
def SessionState.mark_authenticated (s : SessionState) (username : String)
    (now : Nat) : SessionState :=
  { s with is_authenticated := true, username := some username,
           last_auth_time := some now }

/-- The fixed header-name list scanned by
`SessionManager::update_token_from_headers` (`session.rs` lines 250-254). -/
def token_headers : List String :=
  ["__RequestVerificationToken", "__RequestVerificationTokenone",
   "__RequestVerificationTokentwo"]

/-- A response header map, modelled at the `reqwest::HeaderMap` API boundary:
`lookup name` is `headers.get(name)`, returning `none` when the header is
absent, `some none` when present but `to_str()` fails (non-ASCII bytes), and
`some (some v)` when present with string value `v`. -/
structure HeaderMap where
  lookup : String → Option (Option String)

/-- The scanning loop of `update_token_from_headers` over a list of header
names: first name whose value is a non-empty string wins. -/
def update_token_loop (headers : HeaderMap) (s : SessionState) :
    List String → SessionState
  | [] => s
  | name :: rest =>
    match headers.lookup name with
    | some (some v) =>
        if v ≠ "" then { s with csrf_token := some v }
        else update_token_loop headers s rest
    | some none => update_token_loop headers s rest
    | none => update_token_loop headers s rest

/-- `SessionManager::update_token_from_headers` (`session.rs` lines
249-268). -/
def SessionState.update_token_from_headers (s : SessionState)
    (headers : HeaderMap) : SessionState :=
  update_token_loop headers s token_headers

/-- `RetryStrategy` (`retry.rs` lines 32-43).  Durations are exact
millisecond values (`ℚ`); `backoff_multiplier` is an `f64` modelled as an
exact rational. -/
structure RetryStrategy where
  max_attempts : Nat
  initial_delay : ℚ
  max_delay : ℚ
  backoff_multiplier : ℚ
  jitter : Bool

/-- `RetryStrategy::default()` (`retry.rs` lines 45-55): 3 attempts, 500ms
initial delay, 30s max delay, multiplier 2.0, jitter on. -/
def RetryStrategy.default : RetryStrategy :=
  { max_attempts := 3, initial_delay := 500, max_delay := 30000,
    backoff_multiplier := 2, jitter := true }

/-- `RetryStrategy::calculate_delay` (`retry.rs` lines 59-73).  `rand`
models the `fastrand::f64()` sample in `[0,1)` drawn when jitter is on.
`initial_delay.as_millis()` truncates to whole milliseconds, the
`f64 -> u64` casts truncate toward zero (negative saturating to 0), and
`Duration::from_millis(..).min(max_delay)` is the rational minimum. -/
def RetryStrategy.calculate_delay (s : RetryStrategy) (rand : ℚ)
    (attempt : Nat) : ℚ :=
  let base_delay : ℚ := ((⌊s.initial_delay⌋).toNat : ℚ)
  let multiplier : ℚ := s.backoff_multiplier ^ attempt
  let delay_ms : Nat := (⌊base_delay * multiplier⌋).toNat
  let delay : ℚ := min (delay_ms : ℚ) s.max_delay
  if s.jitter then
    let jitter_factor : ℚ := 3/4 + rand * (1/2)
    (((⌊((⌊delay⌋).toNat : ℚ) * jitter_factor⌋).toNat : ℚ))
  else delay

/-- One run of `RetryStrategy::execute` (`retry.rs` lines 76-110), recorded
with its observable effects: the returned result, the number of times the
operation closure was invoked, and the list of backoff delays slept. -/
structure ExecTrace (T : Type) where
  result : Except Error T
  invocations : Nat
  delays : List ℚ
  deriving Repr

/-- The `for attempt in 0..max_attempts` loop of `RetryStrategy::execute`:
`remaining` counts loop iterations still to run (initially `max_attempts`),
`attempt` is the current index, `lastError` the `last_error` variable.
`op k` is the outcome of the `k`-th invocation of the operation, `rands k`
the jitter sample for the delay after attempt `k`. -/
def RetryStrategy.executeLoop (s : RetryStrategy) (op : Nat → Except Error T)
    (rands : Nat → ℚ) :
    Nat → Nat → Option Error → ExecTrace T
  | 0, _, lastError =>
    { result := .error (lastError.getD (Error.generic "All retry attempts failed")),
      invocations := 0, delays := [] }
  | remaining + 1, attempt, _ =>
    match op attempt with
    | .ok v => { result := .ok v, invocations := 1, delays := [] }
    | .error e =>
      if !e.is_retryable then
        { result := .error e, invocations := 1, delays := [] }
      else
        let rest := s.executeLoop op rands remaining (attempt + 1) (some e)
        if remaining > 0 then
          let d := s.calculate_delay (rands attempt) attempt
          { result := rest.result, invocations := rest.invocations + 1,
            delays := d :: rest.delays }
        else
          { result := rest.result, invocations := rest.invocations + 1,
            delays := rest.delays }

/-- `RetryStrategy::execute` (`retry.rs` lines 76-110). -/
def RetryStrategy.execute (s : RetryStrategy) (op : Nat → Except Error T)
    (rands : Nat → ℚ) : ExecTrace T :=
  s.executeLoop op rands s.max_attempts 0 none

/-- quick-xml events as consumed by `extract_token_from_xml`
(`session.rs` lines 123-152).  A `text` event carries the decoded
(unescaped) character content of the underlying text node. -/
inductive XmlEvent where
  | startTag (name : String)
  | text (content : String)
  | endTag (name : String)
  deriving DecidableEq, Repr

/-- Whitespace trimming on both ends of a character list (executable model
of `str::trim` as applied by quick-xml's `trim_text`). -/
def trimChars (l : List Char) : List Char :=
  ((l.dropWhile Char.isWhitespace).reverse.dropWhile Char.isWhitespace).reverse

/-- Whitespace trimming of a string. -/
def strTrim (s : String) : String := String.mk (trimChars s.data)

/-- The reading loop of `SessionManager::extract_token_from_xml`
(`session.rs` lines 123-152).  The reader is configured with
`trim_text(true)`, so every text node is trimmed and nodes that are empty
after trimming are never emitted as events; this is modelled by trimming
and skipping inside the loop.  `inToken` is the `in_token` flag. -/
def extract_token_loop : List XmlEvent → Bool → Except Error String
  | [], _ => .error (Error.mkSession "Could not find token in XML response")
  | XmlEvent.startTag name :: rest, inToken =>
      if name = "token" then extract_token_loop rest true
      else extract_token_loop rest inToken
  | XmlEvent.text content :: rest, inToken =>
      let trimmed := strTrim content
      if trimmed = "" then extract_token_loop rest inToken
      else if inToken then .ok trimmed
      else extract_token_loop rest inToken
  | XmlEvent.endTag name :: rest, inToken =>
      if name = "token" then extract_token_loop rest false
      else extract_token_loop rest inToken

/-- `SessionManager::extract_token_from_xml` (`session.rs` lines
123-152). -/
def extract_token_from_xml (events : List XmlEvent) : Except Error String :=
  extract_token_loop events false

/-- An HTML `<meta>` element as observed by the three CSS selectors of
`extract_token_from_html`: its `name` and `content` attributes. -/
structure MetaTag where
  name : Option String
  content : Option String
  deriving DecidableEq, Repr

/-- Substring containment, modelling the CSS `[content*="csrf"]` attribute
selector and Rust `str::contains`. -/
def strContains (haystack needle : String) : Bool :=
  decide (needle.data <:+: haystack.data)

/-- The third, heuristic selector pass of `extract_token_from_html`
(`session.rs` lines 182-192): first meta tag whose `content` attribute is
longer than 20 characters and entirely alphanumeric. -/
def find_heuristic_meta : List MetaTag → Option String
  | [] => none
  | m :: rest =>
    match m.content with
    | some content =>
        if content.length > 20 && content.data.all (·.isAlphanum) then
          some content
        else find_heuristic_meta rest
    | none => find_heuristic_meta rest

/-- Third selector pass of `extract_token_from_html` (`session.rs` lines
182-192): the heuristic scan over all meta tags with a `content`
attribute. -/
def html_pass3 (metas : List MetaTag) : Except Error String :=
  match find_heuristic_meta metas with
  | some content => .ok content
  | none => .error (Error.mkSession "Could not find CSRF token in HTML")

/-- Second selector pass of `extract_token_from_html` (`session.rs` lines
171-180): the first meta tag whose `content` attribute contains `"csrf"`,
falling through to the heuristic pass when its content is absent or
empty. -/
def html_pass2 (metas : List MetaTag) : Except Error String :=
  match metas.find? (fun m =>
      match m.content with
      | some c => strContains c "csrf"
      | none => false) with
  | some m =>
    match m.content with
    | some content => if content ≠ "" then .ok content else html_pass3 metas
    | none => html_pass3 metas
  | none => html_pass3 metas

/-- `SessionManager::extract_token_from_html` (`session.rs` lines 155-195):
three selector passes over the document's meta tags, first success wins.
Pass 1 takes the first tag with `name="csrf_token"`, pass 2 the first tag
whose `content` contains `"csrf"`, pass 3 the heuristic scan; passes 1 and 2
only accept a present, non-empty `content` attribute of their first match
and otherwise fall through. -/
def extract_token_from_html (metas : List MetaTag) : Except Error String :=
  match metas.find? (fun m => m.name = some "csrf_token") with
  | some m =>
    match m.content with
    | some content => if content ≠ "" then .ok content else html_pass2 metas
    | none => html_pass2 metas
  | none => html_pass2 metas

/-- Outcome of one unauthenticated HTTP GET as consumed by the token
acquisition stages: either a transport failure (`reqwest` error propagated
by `?`) or a status code plus a parsed body. -/
inductive FetchResult (Body : Type) where
  | transportError (e : Error)
  | response (status : Nat) (body : Body)

/-- Environment for one `refresh_csrf_token` run: what the device returns
on the token-endpoint GET and on the homepage GET. -/
structure TokenEnv where
  apiFetch : FetchResult (List XmlEvent)
  homeFetch : FetchResult (List MetaTag)

/-- `StatusCode::is_success()`: 200..=299. -/
def statusIsSuccess (status : Nat) : Bool := 200 ≤ status ∧ status ≤ 299

/-- `SessionManager::try_api_token` (`session.rs` lines 71-93): GET the
token endpoint, require a success status, extract the `<token>` element,
and on success cache it in the session state. -/
def try_api_token (env : TokenEnv) (s : SessionState) :
    SessionState × Except Error String :=
  match env.apiFetch with
  | .transportError e => (s, .error e)
  | .response status events =>
    if !statusIsSuccess status then
      (s, .error (Error.mkSession
        ("Failed to fetch token: HTTP " ++ toString status)))
    else
      match extract_token_from_xml events with
      | .error e => (s, .error e)
      | .ok token => ({ s with csrf_token := some token }, .ok token)

/-- `SessionManager::try_homepage_token` (`session.rs` lines 96-120): GET
the homepage, require a success status, scrape the token out of the HTML,
and on success cache it in the session state. -/
def try_homepage_token (env : TokenEnv) (s : SessionState) :
    SessionState × Except Error String :=
  match env.homeFetch with
  | .transportError e => (s, .error e)
  | .response status metas =>
    if !statusIsSuccess status then
      (s, .error (Error.mkSession
        ("Failed to fetch homepage: HTTP " ++ toString status)))
    else
      match extract_token_from_html metas with
      | .error e => (s, .error e)
      | .ok token => ({ s with csrf_token := some token }, .ok token)

/-- `SessionManager::refresh_csrf_token` (`session.rs` lines 54-68): try the
API token endpoint first, fall back to the homepage scrape on any failure. -/
def refresh_csrf_token (env : TokenEnv) (s : SessionState) :
    SessionState × Except Error String :=
  match try_api_token env s with
  | (s', .ok token) => (s', .ok token)
  | (s', .error _) => try_homepage_token env s'

/-- `SessionManager::get_csrf_token` (`session.rs` lines 41-51): return the
cached token if present, otherwise refresh. -/
def get_csrf_token (env : TokenEnv) (s : SessionState) :
    SessionState × Except Error String :=
  match s.csrf_token with
  | some token => (s, .ok token)
  | none => refresh_csrf_token env s

/-- `Client::check_response_status` (`client.rs` lines 259-293): 2xx is ok;
401/403 invalidates the session and yields an authentication error; other
4xx, 5xx and anything else become `Error::api` of the status code. -/
def check_response_status (status : Nat) (s : SessionState) :
    SessionState × Except Error Unit :=
  if statusIsSuccess status then (s, .ok ())
  else if status = 401 || status = 403 then
    (s.invalidate_session,
     .error (Error.authentication
       ("Authentication failed: HTTP " ++ toString status)))
  else if 400 ≤ status ∧ status ≤ 499 then
    (s, .error (Error.api (status : Int)
      ("Client error: HTTP " ++ toString status)))
  else if 500 ≤ status ∧ status ≤ 599 then
    (s, .error (Error.api (status : Int)
      ("Server error: HTTP " ++ toString status)))
  else
    (s, .error (Error.api (status : Int)
      ("Unexpected status: HTTP " ++ toString status)))

/-- `Client::check_xml_for_errors` (`client.rs` lines 296-311), taken at the
parser-output level: `body` is the result of `check_for_api_error` on the
response text.  A CSRF- or session-class error envelope invalidates the
session; any error envelope is converted through `Error::api`. -/
def check_xml_for_errors (body : Option ApiError) (s : SessionState) :
    SessionState × Except Error Unit :=
  match body with
  | some apiError =>
    let s' := if apiError.is_csrf_error || apiError.is_session_error then
                s.invalidate_session
              else s
    (s', .error (Error.api apiError.code.as_int apiError.error_message))
  | none => (s, .ok ())

/-- Environment for one `post_xml_with_retry` / `get_authenticated_with_retry`
run, assuming the transport layer succeeds (the claims under scrutiny concern
the payload-level token-error path): the parsed bodies of the first response
and of the replay response, the result of the forced token refresh performed
between them, and the `parse_fn` outcomes on the two bodies. -/
structure ReplayEnv (T : Type) where
  body1 : Option ApiError
  body2 : Option ApiError
  tokenEnv : TokenEnv
  parse1 : Except Error T
  parse2 : Except Error T

/-- A `*_with_retry` run recorded with its observable effects: the returned
result, the number of HTTP sends of the logical request, and the number of
`refresh_csrf_token` calls made by the wrapper. -/
structure ReplayTrace (T : Type) where
  result : Except Error T
  state : SessionState
  sends : Nat
  refreshes : Nat

/-- The shared body of `Client::post_xml_with_retry` (`client.rs` lines
314-334) and `Client::get_authenticated_with_retry` (`client.rs` lines
337-357) after the first send succeeded at transport level: check the body
for a device error; on `CsrfTokenInvalid`/`SessionTokenInvalid` refresh the
token once and replay the request once, with the replay's device error (if
any) propagated as is; on any other error propagate immediately; otherwise
parse. -/
def with_retry_run (env : ReplayEnv T) (s : SessionState) : ReplayTrace T :=
  match check_xml_for_errors env.body1 s with
  | (s1, .ok ()) =>
      { result := env.parse1, state := s1, sends := 1, refreshes := 0 }
  | (s1, .error e) =>
    if e = Error.CsrfTokenInvalid ∨ e = Error.SessionTokenInvalid then
      match refresh_csrf_token env.tokenEnv s1 with
      | (s2, .error re) =>
          -- `self.session.refresh_csrf_token().await?` failed: propagate
          { result := .error re, state := s2, sends := 1, refreshes := 1 }
      | (s2, .ok _) =>
        match check_xml_for_errors env.body2 s2 with
        | (s3, .ok ()) =>
            { result := env.parse2, state := s3, sends := 2, refreshes := 1 }
        | (s3, .error e2) =>
            { result := .error e2, state := s3, sends := 2, refreshes := 1 }
    else
      { result := .error e, state := s1, sends := 1, refreshes := 0 }

/-- 32-bit truncation, modelling `u32` wrap-around arithmetic inside the
`sha2` crate's SHA-256 compression function. -/
def mask32 (x : Nat) : Nat := x % 4294967296

/-- 32-bit modular addition. -/
def add32 (a b : Nat) : Nat := (a + b) % 4294967296

/-- 32-bit bitwise complement. -/
def not32 (x : Nat) : Nat := x ^^^ 4294967295

/-- 32-bit right rotation by `n` (0 < n < 32). -/
def rotr32 (n x : Nat) : Nat := ((x <<< (32 - n)) ||| (x >>> n)) % 4294967296

/-- SHA-256 big sigma 0. -/
def bsig0 (x : Nat) : Nat := rotr32 2 x ^^^ rotr32 13 x ^^^ rotr32 22 x

/-- SHA-256 big sigma 1. -/
def bsig1 (x : Nat) : Nat := rotr32 6 x ^^^ rotr32 11 x ^^^ rotr32 25 x

/-- SHA-256 small sigma 0. -/
def ssig0 (x : Nat) : Nat := rotr32 7 x ^^^ rotr32 18 x ^^^ (x >>> 3)

/-- SHA-256 small sigma 1. -/
def ssig1 (x : Nat) : Nat := rotr32 17 x ^^^ rotr32 19 x ^^^ (x >>> 10)

/-- The 64 SHA-256 round constants (FIPS 180-4, in decimal). -/
def sha256K : List Nat :=
  [1116352408, 1899447441, 3049323471, 3921009573,
   961987163, 1508970993, 2453635748, 2870763221,
   3624381080, 310598401, 607225278, 1426881987,
   1925078388, 2162078206, 2614888103, 3248222580,
   3835390401, 4022224774, 264347078, 604807628,
   770255983, 1249150122, 1555081692, 1996064986,
   2554220882, 2821834349, 2952996808, 3210313671,
   3336571891, 3584528711, 113926993, 338241895,
   666307205, 773529912, 1294757372, 1396182291,
   1695183700, 1986661051, 2177026350, 2456956037,
   2730485921, 2820302411, 3259730800, 3345764771,
   3516065817, 3600352804, 4094571909, 275423344,
   430227734, 506948616, 659060556, 883997877,
   958139571, 1322822218, 1537002063, 1747873779,
   1955562222, 2024104815, 2227730452, 2361852424,
   2428436474, 2756734187, 3204031479, 3329325298]

/-- SHA-256 padding: append `0x80`, zero bytes up to 56 mod 64, then the
bit length as 8 big-endian bytes. -/
def sha256Pad (msg : List Nat) : List Nat :=
  let len := msg.length
  let padLen := (119 - len % 64) % 64
  let bitLen := len * 8
  msg ++ [0x80] ++ List.replicate padLen 0 ++
    (List.range 8).map (fun i => (bitLen >>> (8 * (7 - i))) % 256)

/-- Split a byte list into 64-byte blocks (`fuel` bounds the recursion by
the list length). -/
def chunks64Go : Nat → List Nat → List (List Nat)
  | 0, _ => []
  | _, [] => []
  | fuel + 1, l => l.take 64 :: chunks64Go fuel (l.drop 64)

/-- Split a byte list into 64-byte blocks. -/
def chunks64 (l : List Nat) : List (List Nat) := chunks64Go l.length l

/-- Assemble the `i`-th big-endian 32-bit word of a 64-byte block. -/
def blockWord (block : List Nat) (i : Nat) : Nat :=
  (block.getD (4 * i) 0) <<< 24 ||| (block.getD (4 * i + 1) 0) <<< 16 |||
  (block.getD (4 * i + 2) 0) <<< 8 ||| block.getD (4 * i + 3) 0

/-- The 64-word SHA-256 message schedule of one block. -/
def sha256Schedule (block : List Nat) : Array Nat :=
  let w0 : Array Nat := ((List.range 16).map (blockWord block)).toArray
  (List.range 48).foldl (fun w t =>
    let i := t + 16
    w.push (add32 (add32 (ssig1 (w.getD (i - 2) 0)) (w.getD (i - 7) 0))
                  (add32 (ssig0 (w.getD (i - 15) 0)) (w.getD (i - 16) 0)))) w0

/-- The eight SHA-256 working registers. -/
structure Sha256State where
  a : Nat
  b : Nat
  c : Nat
  d : Nat
  e : Nat
  f : Nat
  g : Nat
  h : Nat
  deriving DecidableEq, Repr

/-- SHA-256 initial hash value (FIPS 180-4, in decimal). -/
def sha256Init : Sha256State :=
  ⟨1779033703, 3144134277, 1013904242, 2773480762,
   1359893119, 2600822924, 528734635, 1541459225⟩

/-- One SHA-256 compression round with round constant `k` and schedule
word `w`. -/
def sha256Round (st : Sha256State) (k w : Nat) : Sha256State :=
  let ch := (st.e &&& st.f) ^^^ (not32 st.e &&& st.g)
  let maj := (st.a &&& st.b) ^^^ (st.a &&& st.c) ^^^ (st.b &&& st.c)
  let t1 := add32 (add32 (add32 st.h (bsig1 st.e)) (add32 ch k)) w
  let t2 := add32 (bsig0 st.a) maj
  ⟨add32 t1 t2, st.a, st.b, st.c, add32 st.d t1, st.e, st.f, st.g⟩

/-- Process one 64-byte block: run 64 rounds and add the result to the
incoming state. -/
def sha256Block (st : Sha256State) (block : List Nat) : Sha256State :=
  let w := sha256Schedule block
  let fin := (List.range 64).foldl
    (fun acc i => sha256Round acc (sha256K.getD i 0) (w.getD i 0)) st
  ⟨add32 st.a fin.a, add32 st.b fin.b, add32 st.c fin.c, add32 st.d fin.d,
   add32 st.e fin.e, add32 st.f fin.f, add32 st.g fin.g, add32 st.h fin.h⟩

/-- SHA-256 of a byte list, as the final register state. -/
def sha256Digest (msg : List Nat) : Sha256State :=
  (chunks64 (sha256Pad msg)).foldl sha256Block sha256Init

/-- Lowercase hex digit characters. -/
def hexDigitChar (n : Nat) : Char := "0123456789abcdef".data.getD n '0'

/-- Render a 32-bit word as 8 lowercase hex characters, most significant
nibble first (matching `hex::encode` of the big-endian digest bytes). -/
def wordToHex (w : Nat) : String :=
  String.mk ((List.range 8).map (fun i => hexDigitChar ((w >>> (4 * (7 - i))) % 16)))

/-- Lowercase hex rendering of a SHA-256 digest (`hex::encode(result)`). -/
def sha256hex (msg : List Nat) : String :=
  let d := sha256Digest msg
  wordToHex d.a ++ wordToHex d.b ++ wordToHex d.c ++ wordToHex d.d ++
  wordToHex d.e ++ wordToHex d.f ++ wordToHex d.g ++ wordToHex d.h

/-- UTF-8 encoding of one character (`str::as_bytes` at character level). -/
def charUtf8 (c : Char) : List Nat :=
  let n := c.toNat
  if n < 0x80 then [n]
  else if n < 0x800 then
    [0xC0 ||| (n >>> 6), 0x80 ||| (n &&& 0x3F)]
  else if n < 0x10000 then
    [0xE0 ||| (n >>> 12), 0x80 ||| ((n >>> 6) &&& 0x3F), 0x80 ||| (n &&& 0x3F)]
  else
    [0xF0 ||| (n >>> 18), 0x80 ||| ((n >>> 12) &&& 0x3F),
     0x80 ||| ((n >>> 6) &&& 0x3F), 0x80 ||| (n &&& 0x3F)]

/-- UTF-8 bytes of a string (`password.as_bytes()`). -/
def utf8Bytes (s : String) : List Nat := s.data.flatMap charUtf8

/-- The standard base64 alphabet (`base64::engine::general_purpose::STANDARD`). -/
def b64chars : List Char :=
  "ABCDEFGHIJKLMNOPQRSTUVWXYZabcdefghijklmnopqrstuvwxyz0123456789+/".data

/-- Character for a 6-bit group. -/
def b64char (n : Nat) : Char := b64chars.getD n 'A'

/-- Standard base64 with `=` padding over a byte list. -/
def base64Encode : List Nat → String
  | b1 :: b2 :: b3 :: rest =>
    String.mk [b64char (b1 >>> 2), b64char (((b1 &&& 3) <<< 4) ||| (b2 >>> 4)),
               b64char (((b2 &&& 15) <<< 2) ||| (b3 >>> 6)), b64char (b3 &&& 63)]
      ++ base64Encode rest
  | [b1, b2] =>
    String.mk [b64char (b1 >>> 2), b64char (((b1 &&& 3) <<< 4) ||| (b2 >>> 4)),
               b64char ((b2 &&& 15) <<< 2), '=']
  | [b1] =>
    String.mk [b64char (b1 >>> 2), b64char ((b1 &&& 3) <<< 4), '=', '=']
  | [] => ""

/-- `Client::post_xml_with_retry` (`client.rs` lines 314-334). -/
def post_xml_with_retry (env : ReplayEnv T) (s : SessionState) :
    ReplayTrace T :=
  with_retry_run env s

/-- `Client::get_authenticated_with_retry` (`client.rs` lines 337-357):
textually the same protocol as `post_xml_with_retry` with GET in place of
POST. -/
def get_authenticated_with_retry (env : ReplayEnv T) (s : SessionState) :
    ReplayTrace T :=
  with_retry_run env s

/-- `LoginStatus` (`models/enums.rs`). -/
inductive LoginStatus where
  | LoggedIn
  | NotLoggedIn
  | RepeatLoginRequired
  deriving DecidableEq, Repr

/-- `LoginStatus::is_logged_in` (`models/enums.rs`). -/
def LoginStatus.is_logged_in : LoginStatus → Bool
  | .LoggedIn => true
  | _ => false

/-- `LockStatus` (`models/enums.rs`). -/
inductive LockStatus where
  | Unlocked
  | Locked
  deriving DecidableEq, Repr

/-- `LockStatus::is_locked` (`models/enums.rs`). -/
def LockStatus.is_locked : LockStatus → Bool
  | .Locked => true
  | .Unlocked => false

/-- `LoginState` (`models/auth.rs` lines 8-64): the parsed
`/api/user/state-login` response. -/
structure LoginState where
  password_type : String
  extern_password_type : String
  history_login_flag : String
  state : LoginStatus
  guide_modify_pwd_page_flag : String
  rsa_padding_type : String
  accounts_number : String
  wifi_pwd_same_with_web_pwd : String
  remain_wait_time : String
  lock_status : LockStatus
  force_skip_guide : String
  username : String
  first_login : String
  user_level : String
  deriving DecidableEq, Repr

/-- `PasswordEncoding` (`models/auth.rs` lines 113-123). -/
inductive PasswordEncoding where
  | Base64
  | Base64AfterChange
  | Sha256
  | Unknown
  deriving DecidableEq, Repr

/-- `LoginState::is_logged_in` (`models/auth.rs`). -/
def LoginState.is_logged_in (st : LoginState) : Bool := st.state.is_logged_in

/-- `LoginState::is_locked` (`models/auth.rs`). -/
def LoginState.is_locked (st : LoginState) : Bool := st.lock_status.is_locked

/-- `LoginState::password_encoding` (`models/auth.rs` lines 102-109). -/
def LoginState.password_encoding (st : LoginState) : PasswordEncoding :=
  if st.password_type = "0" then .Base64
  else if st.password_type = "3" then .Base64AfterChange
  else if st.password_type = "4" then .Sha256
  else .Unknown

/-- `PasswordEncoder::encode_base64` (`auth.rs` lines 25-27). -/
def PasswordEncoder.encode_base64 (password : String) : String :=
  base64Encode (utf8Bytes password)

/-- `PasswordEncoder::encode_sha256` (`auth.rs` lines 30-35). -/
def PasswordEncoder.encode_sha256 (password : String) : String :=
  sha256hex (utf8Bytes password)

/-- `PasswordEncoder::encode_password` (`auth.rs` lines 12-22). -/
def PasswordEncoder.encode_password (password : String)
    (login_state : LoginState) : String :=
  match login_state.password_encoding with
  | .Base64 => PasswordEncoder.encode_base64 password
  | .Base64AfterChange => PasswordEncoder.encode_base64 password
  | .Sha256 => PasswordEncoder.encode_sha256 password
  | .Unknown => PasswordEncoder.encode_sha256 password

/-- The generic success/error response `Response` (`models/common.rs` lines
64-90), as parsed from the login/logout POST body. -/
structure DeviceResponse where
  ok : Option String
  error_code : Option String
  error_message : Option String
  deriving DecidableEq, Repr

/-- `Response::is_success` (`models/common.rs`). -/
def DeviceResponse.is_success (r : DeviceResponse) : Bool :=
  r.ok.isSome || r.error_code = some "0" || r.error_code.isNone

/-- `Response::error_code` (`models/common.rs`): parse the code string as an
integer, `none` on failure. -/
def DeviceResponse.error_code_int (r : DeviceResponse) : Option Int :=
  r.error_code.bind String.toInt?

/-- One `AuthApi::login` run recorded with its observable effects: the
returned result, the encoded password if `PasswordEncoder::encode_password`
ran (`none` when it was never reached), whether the login POST was issued,
and the session state afterwards. -/
structure LoginTrace where
  result : Except Error Unit
  encoded : Option String
  posted : Bool
  state : SessionState

/-- `AuthApi::login` (`api/auth.rs` lines 45-100), after the login-state
fetch succeeded with `loginState` and assuming the login POST (when issued)
succeeds at transport level with parsed body `postResp`.  `now` models the
authentication timestamp. -/
def AuthApi.login (loginState : LoginState) (username _password : String)
    (postResp : DeviceResponse) (now : Nat) (s : SessionState) : LoginTrace :=
  if loginState.is_logged_in then
    { result := .ok (), encoded := none, posted := false, state := s }
  else if loginState.is_locked then
    { result := .error (Error.mkSession
        ("Account is locked. Wait time: " ++ loginState.remain_wait_time
          ++ " seconds")),
      encoded := none, posted := false, state := s }
  else
    let encoded_password := PasswordEncoder.encode_password _password loginState
    if postResp.is_success then
      { result := .ok (), encoded := some encoded_password, posted := true,
        state := s.mark_authenticated username now }
    else
      let error_code := postResp.error_code_int.getD (-1)
      let error_message :=
        if error_code = 108001 then "Username wrong"
        else if error_code = 108002 then "Password wrong"
        else if error_code = 108006 then "Username or password wrong"
        else if error_code = 108007 then "Too many login attempts"
        else (postResp.error_message).getD "Login failed"
      { result := .error (Error.api error_code error_message),
        encoded := some encoded_password, posted := true, state := s }

/-- The session states reachable through the `SessionManager` interface as
exercised by the client: the fresh state, clearing/invalidation, marking
authenticated after login, token acquisition and caching, header-driven
token rotation, HTTP status checking, payload error checking, and the
refresh-and-replay wrapper. -/
inductive Reachable : SessionState → Prop where
  | init : Reachable SessionState.default
  | clear {s} : Reachable s → Reachable s.clear_session
  | invalidate {s} : Reachable s → Reachable s.invalidate_session
  | mark {s} (username : String) (now : Nat) :
      Reachable s → Reachable (s.mark_authenticated username now)
  | refresh {s} (env : TokenEnv) :
      Reachable s → Reachable (refresh_csrf_token env s).1
  | getToken {s} (env : TokenEnv) :
      Reachable s → Reachable (get_csrf_token env s).1
  | fromHeaders {s} (headers : HeaderMap) :
      Reachable s → Reachable (s.update_token_from_headers headers)
  | statusCheck {s} (status : Nat) :
      Reachable s → Reachable (check_response_status status s).1
  | xmlCheck {s} (body : Option ApiError) :
      Reachable s → Reachable (check_xml_for_errors body s).1
  | replay {T : Type} {s} (env : ReplayEnv T) :
      Reachable s → Reachable (with_retry_run env s).state
  | loginRun {s} (loginState : LoginState) (username password : String)
      (postResp : DeviceResponse) (now : Nat) :
      Reachable s →
      Reachable (AuthApi.login loginState username password postResp now s).state

/-- The non-emptiness invariant on cached CSRF tokens: whenever a token is
cached, it is a non-empty string. -/
def csrfInv (s : SessionState) : Prop :=
  ∀ t, s.csrf_token = some t → t ≠ ""

/-- The authentication invariant of `SessionState`: an authenticated state
carries a username and an authentication time. -/
def authOk (s : SessionState) : Prop :=
  s.is_authenticated = true → s.username.isSome ∧ s.last_auth_time.isSome

/-- Test fixture mirroring `create_test_login_state` in `auth.rs`'s tests:
a login state with the given password type, lock status and remaining wait
time, not logged in. -/
def mkTestLoginState (password_type : String) (lock : LockStatus)
    (remain_wait_time : String) : LoginState :=
  { password_type := password_type, extern_password_type := "1",
    history_login_flag := "0", state := .NotLoggedIn,
    guide_modify_pwd_page_flag := "0", rsa_padding_type := "1",
    accounts_number := "1", wifi_pwd_same_with_web_pwd := "0",
    remain_wait_time := remain_wait_time, lock_status := lock,
    force_skip_guide := "0", username := "", first_login := "0",
    user_level := "" }

/-- A successful parsed login POST body. -/
def okDeviceResponse : DeviceResponse :=
  { ok := some "OK", error_code := none, error_message := none }

/-- A token-endpoint environment that serves the token `tok123` on the XML
stage. -/
def tokenEnvFixture : TokenEnv :=
  { apiFetch := .response 200
      [.startTag "response", .startTag "token", .text "tok123",
       .endTag "token", .endTag "response"],
    homeFetch := .response 200 [] }

/-- A replay environment whose first body carries the CSRF-invalid device
error 125002 and whose replay body carries the session-invalid device error
125003. -/
def replayEnvFixture : ReplayEnv Unit :=
  { body1 := some { code := .CsrfTokenInvalid, message := none },
    body2 := some { code := .WrongSessionToken, message := none },
    tokenEnv := tokenEnvFixture,
    parse1 := .ok (), parse2 := .ok () }

/-- A header map carrying non-empty values on the first two recognised
token headers. -/
def headerMapFixture : HeaderMap :=
  { lookup := fun name =>
      if name = "__RequestVerificationToken" then some (some "tokA")
      else if name = "__RequestVerificationTokenone" then some (some "tokB")
      else none }

/-- A header map carrying only an empty value on the first recognised token
header and an unparsable value on the second. -/
def headerMapEmptyFixture : HeaderMap :=
  { lookup := fun name =>
      if name = "__RequestVerificationToken" then some (some "")
      else if name = "__RequestVerificationTokenone" then some none
      else none }

/-! ## Theorems -/

/-- C4 counterexample: the device payload code 500 is not among the eight
recognised codes and is classified by `Error::api` as the generic `Api`
error, yet `is_retryable()` is `true` on it — refuting the claim that every
unrecognised code yields a non-retryable error. -/
theorem api_code_500_generic_but_retryable :
    (500 : Int) ∉ recognizedCodes ∧
    Error.api 500 "busy" = Error.Api 500 "busy" ∧
    (Error.api 500 "busy").is_retryable = true := by
  refine ⟨by decide, by decide, by decide⟩

/-- C4 (amended): every device payload code outside the eight recognised
codes is classified by `Error::api` as the generic `Api{code, message}`
error, and that error is retryable exactly when the code lies in the HTTP
server-error range `[500, 600)`; in particular it is non-retryable for
every code outside that range. -/
theorem api_unrecognized_generic (code : Int) (message : String)
    (h : code ∉ recognizedCodes) :
    Error.api code message = Error.Api code message ∧
    ((Error.api code message).is_retryable = true ↔ 500 ≤ code ∧ code < 600) := by
  simp only [recognizedCodes, List.mem_cons, List.not_mem_nil, or_false,
    not_or] at h
  obtain ⟨hA, hB, hC, hD, hE, hF, hG, hH⟩ := h
  have hapi : Error.api code message = Error.Api code message := by
    simp only [Error.api, if_neg hA, if_neg hB, if_neg hC, if_neg hD,
      if_neg hE, if_neg hF, if_neg hG, if_neg hH]
  refine ⟨hapi, ?_⟩
  rw [hapi]
  simp [Error.is_retryable]

/-- Witness for `api_unrecognized_generic` at the concrete unrecognised
code 100008. -/
theorem api_unrecognized_generic_witness :
    Error.api 100008 "login failed" = Error.Api 100008 "login failed" ∧
    ((Error.api 100008 "login failed").is_retryable = true ↔
      500 ≤ (100008 : Int) ∧ (100008 : Int) < 600) :=
  api_unrecognized_generic 100008 "login failed" (by decide)

/-- C5: with jitter disabled, every computed backoff delay equals
`min(max_delay, initial_delay * backoff_multiplier^k)` truncated to whole
milliseconds (for non-negative whole-millisecond initial delays, as produced
by `Duration`); in particular with `initial_delay = 100ms`,
`backoff_multiplier = 2.0`, `max_delay = 10s` the delays for attempts
0, 1, 2 are 100ms, 200ms, 400ms. -/
theorem calculate_delay_matches_spec :
    (∀ (s : RetryStrategy) (rand : ℚ) (k : Nat),
      s.jitter = false → 0 ≤ s.initial_delay →
      s.initial_delay = (⌊s.initial_delay⌋ : ℚ) →
      s.calculate_delay rand k =
        min s.max_delay
          ((⌊s.initial_delay * s.backoff_multiplier ^ k⌋.toNat : ℚ))) ∧
    ((RetryStrategy.mk 3 100 10000 2 false).calculate_delay 0 0 = 100 ∧
     (RetryStrategy.mk 3 100 10000 2 false).calculate_delay 0 1 = 200 ∧
     (RetryStrategy.mk 3 100 10000 2 false).calculate_delay 0 2 = 400) := by
  constructor
  · intro s rand k hj h0 hw
    have hfloor : (0 : Int) ≤ ⌊s.initial_delay⌋ := by
      exact_mod_cast Int.le_floor.mpr (by exact_mod_cast h0)
    have hbase : ((⌊s.initial_delay⌋.toNat : Int) : ℚ) = s.initial_delay := by
      rw [Int.toNat_of_nonneg hfloor]; exact hw.symm
    simp only [RetryStrategy.calculate_delay, hj, Bool.false_eq_true,
      if_false]
    rw [show ((⌊s.initial_delay⌋.toNat : Nat) : ℚ)
          = ((⌊s.initial_delay⌋.toNat : Int) : ℚ) by push_cast; ring]
    rw [hbase, min_comm]
  · refine ⟨?_, ?_, ?_⟩
    · simp only [RetryStrategy.calculate_delay]
      norm_num
      rw [show Int.toNat 100 = 100 from rfl]
      norm_num
    · simp only [RetryStrategy.calculate_delay]
      norm_num
      rw [show Int.toNat 100 = 100 from rfl]
      rw [show ((100 : ℕ) : ℚ) * 2 = ((200 : ℤ) : ℚ) by norm_num,
        Int.floor_intCast]
      rw [show Int.toNat 200 = 200 from rfl]
      rw [min_eq_left (by norm_num)]
      norm_num
    · simp only [RetryStrategy.calculate_delay]
      norm_num
      rw [show Int.toNat 100 = 100 from rfl]
      rw [show ((100 : ℕ) : ℚ) * 4 = ((400 : ℤ) : ℚ) by norm_num,
        Int.floor_intCast]
      rw [show Int.toNat 400 = 400 from rfl]
      rw [min_eq_left (by norm_num)]
      norm_num

/-- Witness for `calculate_delay_matches_spec`: the jitter-free strategy
with 100ms initial delay and multiplier 2 computes 400ms at attempt 2. -/
theorem calculate_delay_matches_spec_witness :
    (RetryStrategy.mk 3 100 10000 2 false).calculate_delay 0 2 =
      min (10000 : ℚ) ((⌊(100 : ℚ) * 2 ^ 2⌋.toNat : ℚ)) :=
  calculate_delay_matches_spec.1 (RetryStrategy.mk 3 100 10000 2 false) 0 2
    rfl (by norm_num) (by norm_num)

/-- C7: an HTTP 401 or 403 status invalidates the whole session state —
`is_authenticated` becomes false and the token, username and auth time are
cleared — and the call returns an authentication error. -/
theorem status_401_403_invalidates_session (status : Nat) (s : SessionState)
    (h : status = 401 ∨ status = 403) :
    (check_response_status status s).1.is_authenticated = false ∧
    (check_response_status status s).1.csrf_token = none ∧
    (check_response_status status s).1.username = none ∧
    (check_response_status status s).1.last_auth_time = none ∧
    (check_response_status status s).2 =
      .error (Error.authentication
        ("Authentication failed: HTTP " ++ toString status)) := by
  rcases h with h | h <;> subst h <;>
    simp [check_response_status, statusIsSuccess,
      SessionState.invalidate_session, SessionState.clear_session,
      Error.authentication]

/-- Witness for `status_401_403_invalidates_session` at status 401 on an
authenticated session. -/
theorem status_401_403_invalidates_session_witness :
    (check_response_status 401
        (SessionState.default.mark_authenticated "admin" 5)).1.is_authenticated
      = false ∧
    (check_response_status 401
        (SessionState.default.mark_authenticated "admin" 5)).1.csrf_token
      = none ∧
    (check_response_status 401
        (SessionState.default.mark_authenticated "admin" 5)).1.username
      = none ∧
    (check_response_status 401
        (SessionState.default.mark_authenticated "admin" 5)).1.last_auth_time
      = none ∧
    (check_response_status 401
        (SessionState.default.mark_authenticated "admin" 5)).2 =
      .error (Error.authentication ("Authentication failed: HTTP "
        ++ toString (401 : Nat))) :=
  status_401_403_invalidates_session 401
    (SessionState.default.mark_authenticated "admin" 5) (Or.inl rfl)

/-- Setting (only) the cached token preserves the authentication
invariant. -/
theorem authOk_csrfSet {s : SessionState} (t : Option String) (h : authOk s) :
    authOk { s with csrf_token := t } := h

/-- A cleared session satisfies the authentication invariant. -/
theorem authOk_clear (s : SessionState) : authOk s.clear_session := by
  simp [authOk, SessionState.clear_session]

/-- An invalidated session satisfies the authentication invariant. -/
theorem authOk_invalidate (s : SessionState) : authOk s.invalidate_session :=
  authOk_clear s

/-- `mark_authenticated` establishes the authentication invariant. -/
theorem authOk_mark (s : SessionState) (u : String) (now : Nat) :
    authOk (s.mark_authenticated u now) := by
  simp [authOk, SessionState.mark_authenticated]

/-- `try_api_token` preserves the authentication invariant. -/
theorem authOk_try_api (env : TokenEnv) (s : SessionState) (h : authOk s) :
    authOk (try_api_token env s).1 := by
  unfold try_api_token
  split
  · exact h
  · split
    · exact h
    · split
      · exact h
      · exact authOk_csrfSet _ h

/-- `try_homepage_token` preserves the authentication invariant. -/
theorem authOk_try_homepage (env : TokenEnv) (s : SessionState)
    (h : authOk s) : authOk (try_homepage_token env s).1 := by
  unfold try_homepage_token
  split
  · exact h
  · split
    · exact h
    · split
      · exact h
      · exact authOk_csrfSet _ h

/-- `refresh_csrf_token` preserves the authentication invariant. -/
theorem authOk_refresh (env : TokenEnv) (s : SessionState) (h : authOk s) :
    authOk (refresh_csrf_token env s).1 := by
  unfold refresh_csrf_token
  split
  · rename_i s' token heq
    have := authOk_try_api env s h
    rw [heq] at this
    exact this
  · rename_i s' e heq
    have hs' : authOk s' := by
      have := authOk_try_api env s h
      rw [heq] at this
      exact this
    exact authOk_try_homepage env s' hs'

/-- `get_csrf_token` preserves the authentication invariant. -/
theorem authOk_get_token (env : TokenEnv) (s : SessionState) (h : authOk s) :
    authOk (get_csrf_token env s).1 := by
  unfold get_csrf_token
  split
  · exact h
  · exact authOk_refresh env s h

/-- The header-scanning loop preserves the authentication invariant. -/
theorem authOk_update_loop (headers : HeaderMap) (s : SessionState)
    (names : List String) (h : authOk s) :
    authOk (update_token_loop headers s names) := by
  induction names with
  | nil => exact h
  | cons n rest ih =>
    unfold update_token_loop
    split
    · split
      · exact authOk_csrfSet _ h
      · exact ih
    · exact ih
    · exact ih

/-- `update_token_from_headers` preserves the authentication invariant. -/
theorem authOk_update_headers (headers : HeaderMap) (s : SessionState)
    (h : authOk s) : authOk (s.update_token_from_headers headers) :=
  authOk_update_loop headers s token_headers h

/-- `check_response_status` preserves the authentication invariant. -/
theorem authOk_check_status (status : Nat) (s : SessionState) (h : authOk s) :
    authOk (check_response_status status s).1 := by
  unfold check_response_status
  split
  · exact h
  · split
    · exact authOk_invalidate s
    · split
      · exact h
      · split
        · exact h
        · exact h

/-- `check_xml_for_errors` preserves the authentication invariant. -/
theorem authOk_check_xml (body : Option ApiError) (s : SessionState)
    (h : authOk s) : authOk (check_xml_for_errors body s).1 := by
  unfold check_xml_for_errors
  split
  · split
    · exact authOk_invalidate s
    · exact h
  · exact h

/-- `with_retry_run` preserves the authentication invariant. -/
theorem authOk_with_retry {T : Type} (env : ReplayEnv T) (s : SessionState)
    (h : authOk s) : authOk (with_retry_run env s).state := by
  unfold with_retry_run
  split
  · rename_i s1 heq
    have := authOk_check_xml env.body1 s h
    rw [heq] at this
    exact this
  · rename_i s1 e heq
    have hs1 : authOk s1 := by
      have := authOk_check_xml env.body1 s h
      rw [heq] at this
      exact this
    split
    · split
      · rename_i s2 re heq2
        have := authOk_refresh env.tokenEnv s1 hs1
        rw [heq2] at this
        exact this
      · rename_i s2 tok heq2
        have hs2 : authOk s2 := by
          have := authOk_refresh env.tokenEnv s1 hs1
          rw [heq2] at this
          exact this
        split
        · rename_i s3 heq3
          have := authOk_check_xml env.body2 s2 hs2
          rw [heq3] at this
          exact this
        · rename_i s3 e2 heq3
          have := authOk_check_xml env.body2 s2 hs2
          rw [heq3] at this
          exact this
    · exact hs1

/-- `AuthApi::login` preserves the authentication invariant. -/
theorem authOk_login (loginState : LoginState) (u p : String)
    (postResp : DeviceResponse) (now : Nat) (s : SessionState)
    (h : authOk s) :
    authOk (AuthApi.login loginState u p postResp now s).state := by
  unfold AuthApi.login
  split
  · exact h
  · split
    · exact h
    · split
      · exact authOk_mark s u now
      · exact h

/-- C8: every session state reachable through the `SessionManager`
interface satisfies the invariant that an authenticated state carries a
username and a last-authentication time: the fresh state satisfies it,
`mark_authenticated` establishes all three fields together, clearing and
invalidation reset all of them, and every other operation only touches the
cached token. -/
theorem reachable_auth_invariant (s : SessionState) (h : Reachable s) :
    s.is_authenticated = true → s.username.isSome ∧ s.last_auth_time.isSome := by
  have : authOk s := by
    induction h with
    | init => simp [authOk, SessionState.default]
    | clear _ _ => exact authOk_clear _
    | invalidate _ _ => exact authOk_invalidate _
    | mark u now _ _ => exact authOk_mark _ u now
    | refresh env _ ih => exact authOk_refresh env _ ih
    | getToken env _ ih => exact authOk_get_token env _ ih
    | fromHeaders headers _ ih => exact authOk_update_headers headers _ ih
    | statusCheck status _ ih => exact authOk_check_status status _ ih
    | xmlCheck body _ ih => exact authOk_check_xml body _ ih
    | replay env _ ih => exact authOk_with_retry env _ ih
    | loginRun ls u p resp now _ ih => exact authOk_login ls u p resp now _ ih
  exact this

/-- Witness for `reachable_auth_invariant`: the state reached by logging in
as `admin` from the fresh state is authenticated and carries both the
username and the timestamp. -/
theorem reachable_auth_invariant_witness :
    (SessionState.default.mark_authenticated "admin" 0).username.isSome ∧
    (SessionState.default.mark_authenticated "admin" 0).last_auth_time.isSome :=
  reachable_auth_invariant (SessionState.default.mark_authenticated "admin" 0)
    (Reachable.mark "admin" 0 Reachable.init) rfl

/-- A header name whose value is absent, unparsable, or empty is skipped by
the scanning loop. -/
theorem update_token_loop_skip (headers : HeaderMap) (s : SessionState)
    (n : String) (rest : List String)
    (h : ∀ v, headers.lookup n = some (some v) → v = "") :
    update_token_loop headers s (n :: rest) =
      update_token_loop headers s rest := by
  unfold update_token_loop
  split
  · rename_i v hlook
    split
    · rename_i hne
      exact absurd (h v hlook) hne
    · cases rest <;> rfl
  · cases rest <;> rfl
  · cases rest <;> rfl

/-- A header name carrying a non-empty string value stops the scanning loop
and rewrites only the cached token. -/
theorem update_token_loop_hit (headers : HeaderMap) (s : SessionState)
    (n : String) (rest : List String) (v : String)
    (hv : headers.lookup n = some (some v)) (hne : v ≠ "") :
    update_token_loop headers s (n :: rest) =
      { s with csrf_token := some v } := by
  unfold update_token_loop
  rw [hv]
  simp [hne]

/-- C10: if none of the three recognised token headers carries a non-empty
string value, `update_token_from_headers` leaves the whole session state
unchanged; and when several do, the first header in the fixed order
`__RequestVerificationToken`, `__RequestVerificationTokenone`,
`__RequestVerificationTokentwo` whose value is a non-empty string
determines the new token (rewriting only the cached token). -/
theorem update_token_from_headers_spec (headers : HeaderMap)
    (s : SessionState) :
    ((∀ name ∈ token_headers, ∀ v,
        headers.lookup name = some (some v) → v = "") →
      s.update_token_from_headers headers = s) ∧
    (∀ v, headers.lookup "__RequestVerificationToken" = some (some v) →
      v ≠ "" →
      s.update_token_from_headers headers = { s with csrf_token := some v }) ∧
    (∀ v, (∀ v1, headers.lookup "__RequestVerificationToken" = some (some v1) →
        v1 = "") →
      headers.lookup "__RequestVerificationTokenone" = some (some v) →
      v ≠ "" →
      s.update_token_from_headers headers = { s with csrf_token := some v }) ∧
    (∀ v, (∀ v1, headers.lookup "__RequestVerificationToken" = some (some v1) →
        v1 = "") →
      (∀ v2, headers.lookup "__RequestVerificationTokenone" = some (some v2) →
        v2 = "") →
      headers.lookup "__RequestVerificationTokentwo" = some (some v) →
      v ≠ "" →
      s.update_token_from_headers headers = { s with csrf_token := some v }) := by
  refine ⟨?_, ?_, ?_, ?_⟩
  · intro h
    unfold SessionState.update_token_from_headers token_headers
    rw [update_token_loop_skip headers s _ _ (h _ (by simp [token_headers])),
      update_token_loop_skip headers s _ _ (h _ (by simp [token_headers])),
      update_token_loop_skip headers s _ _ (h _ (by simp [token_headers]))]
    rfl
  · intro v hv hne
    unfold SessionState.update_token_from_headers token_headers
    exact update_token_loop_hit headers s _ _ v hv hne
  · intro v h1 hv hne
    unfold SessionState.update_token_from_headers token_headers
    rw [update_token_loop_skip headers s _ _ h1]
    exact update_token_loop_hit headers s _ _ v hv hne
  · intro v h1 h2 hv hne
    unfold SessionState.update_token_from_headers token_headers
    rw [update_token_loop_skip headers s _ _ h1,
      update_token_loop_skip headers s _ _ h2]
    exact update_token_loop_hit headers s _ _ v hv hne

/-- Witness for `update_token_from_headers_spec`: with the first two token
headers present and non-empty, the first one in the fixed order wins. -/
theorem update_token_from_headers_spec_witness :
    SessionState.default.update_token_from_headers headerMapFixture =
      { SessionState.default with csrf_token := some "tokA" } :=
  (update_token_from_headers_spec headerMapFixture SessionState.default).2.1
    "tokA" rfl (by decide)

/-- C3 counterexample: logging in against a locked account returns the
session-class error built from the remaining wait time, and that error is
**retryable** (`Error::Session` is retryable in `is_retryable`),
contradicting the claim that the error is non-retryable. -/
theorem login_locked_error_is_retryable :
    (AuthApi.login (mkTestLoginState "4" .Locked "30") "admin" "secret"
        okDeviceResponse 0 SessionState.default).result =
      .error (Error.Session "Account is locked. Wait time: 30 seconds") ∧
    (Error.Session "Account is locked. Wait time: 30 seconds").is_retryable
      = true := by
  exact ⟨rfl, rfl⟩

/-- C3 (amended): logging in when the fetched login state reports the
account locked (and not already logged in) fails immediately with a
session-class error whose message contains the remaining wait time, without
password encoding, without a login POST, and without touching the session
state; the error is retryable under `is_retryable` (not non-retryable as
the original claim stated). -/
theorem login_locked_behavior (loginState : LoginState) (u p : String)
    (postResp : DeviceResponse) (now : Nat) (s : SessionState)
    (hin : loginState.is_logged_in = false)
    (hlock : loginState.is_locked = true) :
    (AuthApi.login loginState u p postResp now s).result =
      .error (Error.Session ("Account is locked. Wait time: "
        ++ loginState.remain_wait_time ++ " seconds")) ∧
    loginState.remain_wait_time.data <:+:
      ("Account is locked. Wait time: "
        ++ loginState.remain_wait_time ++ " seconds").data ∧
    (Error.Session ("Account is locked. Wait time: "
        ++ loginState.remain_wait_time ++ " seconds")).is_retryable = true ∧
    (AuthApi.login loginState u p postResp now s).encoded = none ∧
    (AuthApi.login loginState u p postResp now s).posted = false ∧
    (AuthApi.login loginState u p postResp now s).state = s := by
  have hrun : AuthApi.login loginState u p postResp now s =
      { result := .error (Error.mkSession ("Account is locked. Wait time: "
          ++ loginState.remain_wait_time ++ " seconds")),
        encoded := none, posted := false, state := s } := by
    unfold AuthApi.login
    rw [if_neg (by simp [hin]), if_pos (by simp [hlock])]
  refine ⟨by rw [hrun]; rfl, ?_, rfl, by rw [hrun], by rw [hrun],
    by rw [hrun]⟩
  rw [String.data_append, String.data_append]
  exact List.infix_append _ _ _

/-- Witness for `login_locked_behavior` on a concrete locked login state
with 30 seconds of remaining wait time. -/
theorem login_locked_behavior_witness :
    (AuthApi.login (mkTestLoginState "0" .Locked "30") "admin" "pw"
        okDeviceResponse 7 SessionState.default).result =
      .error (Error.Session ("Account is locked. Wait time: "
        ++ (mkTestLoginState "0" .Locked "30").remain_wait_time
        ++ " seconds")) ∧
    (mkTestLoginState "0" .Locked "30").remain_wait_time.data <:+:
      ("Account is locked. Wait time: "
        ++ (mkTestLoginState "0" .Locked "30").remain_wait_time
        ++ " seconds").data ∧
    (Error.Session ("Account is locked. Wait time: "
        ++ (mkTestLoginState "0" .Locked "30").remain_wait_time
        ++ " seconds")).is_retryable = true ∧
    (AuthApi.login (mkTestLoginState "0" .Locked "30") "admin" "pw"
        okDeviceResponse 7 SessionState.default).encoded = none ∧
    (AuthApi.login (mkTestLoginState "0" .Locked "30") "admin" "pw"
        okDeviceResponse 7 SessionState.default).posted = false ∧
    (AuthApi.login (mkTestLoginState "0" .Locked "30") "admin" "pw"
        okDeviceResponse 7 SessionState.default).state =
      SessionState.default :=
  login_locked_behavior (mkTestLoginState "0" .Locked "30") "admin" "pw"
    okDeviceResponse 7 SessionState.default rfl rfl

/-- The retry loop on an always-failing retryable operation runs all its
remaining iterations and reports the error of the last attempt. -/
theorem executeLoop_allFail {T : Type} (s : RetryStrategy) (errs : Nat → Error)
    (rands : Nat → ℚ) (hr : ∀ k, (errs k).is_retryable = true) :
    ∀ (r a : Nat) (le : Option Error), 1 ≤ r →
      (s.executeLoop (T := T) (fun k => .error (errs k)) rands r a le).result
        = .error (errs (a + r - 1)) ∧
      (s.executeLoop (T := T) (fun k => .error (errs k)) rands r a le).invocations
        = r := by
  intro r
  induction r with
  | zero => intro a le h; omega
  | succ r ih =>
    intro a le _
    simp only [RetryStrategy.executeLoop, hr a, Bool.not_true,
      Bool.false_eq_true, if_false]
    cases r with
    | zero =>
      simp only [RetryStrategy.executeLoop, gt_iff_lt, Nat.lt_irrefl,
        if_false, Option.getD_some, Nat.add_sub_cancel]
      exact ⟨trivial, trivial⟩
    | succ r' =>
      have hih := ih (a + 1) (some (errs a)) (Nat.succ_le_succ (Nat.zero_le r'))
      simp only [gt_iff_lt, Nat.succ_pos, if_true]
      have hidx : a + 1 + (r' + 1) - 1 = a + (r' + 1 + 1) - 1 := by omega
      refine ⟨?_, ?_⟩
      · rw [hih.1, hidx]
      · rw [hih.2]

/-- C2: for every strategy with `max_attempts = n ≥ 1`, an operation failing
on every invocation with a retryable error is invoked exactly `n` times and
the error of the last (n-th) invocation is returned; an operation failing
with a non-retryable error is invoked exactly once and its error is
returned immediately with no backoff delay. -/
theorem retry_execute_spec :
    (∀ (T : Type) (s : RetryStrategy) (errs : Nat → Error) (rands : Nat → ℚ),
      1 ≤ s.max_attempts →
      (∀ k, (errs k).is_retryable = true) →
      (s.execute (T := T) (fun k => .error (errs k)) rands).result
        = .error (errs (s.max_attempts - 1)) ∧
      (s.execute (T := T) (fun k => .error (errs k)) rands).invocations
        = s.max_attempts) ∧
    (∀ (T : Type) (s : RetryStrategy) (op : Nat → Except Error T)
        (rands : Nat → ℚ) (e : Error),
      1 ≤ s.max_attempts →
      op 0 = .error e →
      e.is_retryable = false →
      (s.execute op rands).result = .error e ∧
      (s.execute op rands).invocations = 1 ∧
      (s.execute op rands).delays = []) := by
  constructor
  · intro T s errs rands hn hr
    have h := executeLoop_allFail (T := T) s errs rands hr s.max_attempts 0
      none hn
    unfold RetryStrategy.execute
    simpa using h
  · intro T s op rands e hn hop hnr
    unfold RetryStrategy.execute
    obtain ⟨m, hm⟩ : ∃ m, s.max_attempts = m + 1 :=
      ⟨s.max_attempts - 1, by omega⟩
    rw [hm]
    simp only [RetryStrategy.executeLoop, hop, hnr, Bool.not_false, if_true]
    exact ⟨trivial, trivial, trivial⟩

/-- Witness for `retry_execute_spec`: with 3 attempts, an operation that
always fails with a retryable session error is invoked 3 times and the last
error is returned, and an operation failing with the non-retryable
`LoginRequired` error is invoked once with no delays. -/
theorem retry_execute_spec_witness :
    (((RetryStrategy.mk 3 1 10 2 false).execute (T := Unit)
        (fun k => .error ((fun _ => Error.Session "boom") k))
        (fun _ => 0)).result = .error (Error.Session "boom") ∧
     ((RetryStrategy.mk 3 1 10 2 false).execute (T := Unit)
        (fun k => .error ((fun _ => Error.Session "boom") k))
        (fun _ => 0)).invocations = 3) ∧
    (((RetryStrategy.mk 3 1 10 2 false).execute (T := Unit)
        (fun _ => .error Error.LoginRequired) (fun _ => 0)).result
        = .error Error.LoginRequired ∧
     ((RetryStrategy.mk 3 1 10 2 false).execute (T := Unit)
        (fun _ => .error Error.LoginRequired) (fun _ => 0)).invocations = 1 ∧
     ((RetryStrategy.mk 3 1 10 2 false).execute (T := Unit)
        (fun _ => .error Error.LoginRequired) (fun _ => 0)).delays = []) :=
  ⟨retry_execute_spec.1 Unit (RetryStrategy.mk 3 1 10 2 false)
      (fun _ => Error.Session "boom") (fun _ => 0) (by norm_num)
      (fun _ => rfl),
   retry_execute_spec.2 Unit (RetryStrategy.mk 3 1 10 2 false)
      (fun _ => .error Error.LoginRequired) (fun _ => 0) Error.LoginRequired
      (by norm_num) rfl rfl⟩

/-- Core of the refresh-and-replay protocol: when the first body carries a
token-class device error and the forced refresh succeeds, `with_retry_run`
performs exactly one refresh and one replay, and a token-class error on the
replay is propagated as is. -/
theorem with_retry_token_class {T : Type} (env : ReplayEnv T)
    (s s' : SessionState) (tok : String) (e1 : ApiError)
    (hb1 : env.body1 = some e1)
    (hc1 : e1.code = .CsrfTokenInvalid ∨ e1.code = .WrongSessionToken)
    (hrefresh : refresh_csrf_token env.tokenEnv s.invalidate_session
      = (s', .ok tok)) :
    (with_retry_run env s).refreshes = 1 ∧
    (with_retry_run env s).sends = 2 ∧
    (∀ e2, env.body2 = some e2 →
      (e2.code = .CsrfTokenInvalid ∨ e2.code = .WrongSessionToken) →
      (with_retry_run env s).result =
        .error (Error.api e2.code.as_int e2.error_message)) := by
  have hchk : check_xml_for_errors env.body1 s =
      (s.invalidate_session,
       .error (Error.api e1.code.as_int e1.error_message)) := by
    rw [hb1]
    unfold check_xml_for_errors
    rcases hc1 with h | h <;>
      simp [ApiError.is_csrf_error, ApiError.is_session_error,
        ApiErrorCode.is_csrf_error, ApiErrorCode.is_session_error, h]
  have hiserr : Error.api e1.code.as_int e1.error_message
        = Error.CsrfTokenInvalid ∨
      Error.api e1.code.as_int e1.error_message = Error.SessionTokenInvalid := by
    cases hc1 with
    | inl hcode => exact Or.inl (by rw [hcode]; rfl)
    | inr hcode => exact Or.inr (by rw [hcode]; rfl)
  unfold with_retry_run
  rw [hchk]
  simp only [if_pos hiserr]
  rw [hrefresh]
  refine ⟨?_, ?_, ?_⟩
  · rcases h2 : check_xml_for_errors env.body2 s' with ⟨s3, r3⟩
    cases r3 <;> simp [h2]
  · rcases h2 : check_xml_for_errors env.body2 s' with ⟨s3, r3⟩
    cases r3 <;> simp [h2]
  · intro e2 hb2 hc2
    have hchk2 : check_xml_for_errors env.body2 s' =
        (s'.invalidate_session,
         .error (Error.api e2.code.as_int e2.error_message)) := by
      rw [hb2]
      unfold check_xml_for_errors
      rcases hc2 with h | h <;>
        simp [ApiError.is_csrf_error, ApiError.is_session_error,
          ApiErrorCode.is_csrf_error, ApiErrorCode.is_session_error, h]
    simp [hchk2]

/-- C1: in both `post_xml_with_retry` and `get_authenticated_with_retry`,
a first response body carrying a `CsrfTokenInvalid` (125002) or
`SessionTokenInvalid` (125003) device error causes exactly one token
refresh and exactly one replay of the request (assuming the refresh
succeeds); if the replay's body again carries a token-class device error,
that error is returned to the caller as a terminal token-class error and no
further refresh or replay occurs — the trace still shows one refresh and
two sends in total. -/
theorem token_error_single_refresh_replay {T : Type} (env : ReplayEnv T)
    (s : SessionState) (e1 : ApiError)
    (hb1 : env.body1 = some e1)
    (hc1 : e1.code = .CsrfTokenInvalid ∨ e1.code = .WrongSessionToken)
    (s' : SessionState) (tok : String)
    (hrefresh : refresh_csrf_token env.tokenEnv s.invalidate_session
      = (s', .ok tok)) :
    ((post_xml_with_retry env s).refreshes = 1 ∧
     (post_xml_with_retry env s).sends = 2 ∧
     (get_authenticated_with_retry env s).refreshes = 1 ∧
     (get_authenticated_with_retry env s).sends = 2) ∧
    (∀ e2, env.body2 = some e2 →
      (e2.code = .CsrfTokenInvalid ∨ e2.code = .WrongSessionToken) →
      (post_xml_with_retry env s).result =
        .error (Error.api e2.code.as_int e2.error_message) ∧
      (get_authenticated_with_retry env s).result =
        .error (Error.api e2.code.as_int e2.error_message) ∧
      (Error.api e2.code.as_int e2.error_message = Error.CsrfTokenInvalid ∨
       Error.api e2.code.as_int e2.error_message
         = Error.SessionTokenInvalid)) := by
  have h := with_retry_token_class env s s' tok e1 hb1 hc1 hrefresh
  refine ⟨⟨h.1, h.2.1, h.1, h.2.1⟩, ?_⟩
  intro e2 hb2 hc2
  refine ⟨h.2.2 e2 hb2 hc2, h.2.2 e2 hb2 hc2, ?_⟩
  cases hc2 with
  | inl hcode => exact Or.inl (by rw [hcode]; rfl)
  | inr hcode => exact Or.inr (by rw [hcode]; rfl)

/-- Witness for `token_error_single_refresh_replay`: the fixture replay
environment serves a 125002 error first and a 125003 error on the replay,
with the token endpoint serving `tok123` for the refresh. -/
theorem token_error_single_refresh_replay_witness :
    ((post_xml_with_retry replayEnvFixture SessionState.default).refreshes = 1 ∧
     (post_xml_with_retry replayEnvFixture SessionState.default).sends = 2 ∧
     (get_authenticated_with_retry replayEnvFixture
        SessionState.default).refreshes = 1 ∧
     (get_authenticated_with_retry replayEnvFixture
        SessionState.default).sends = 2) ∧
    ((post_xml_with_retry replayEnvFixture SessionState.default).result =
      .error (Error.api (ApiError.mk .WrongSessionToken none).code.as_int
        (ApiError.mk .WrongSessionToken none).error_message) ∧
     (get_authenticated_with_retry replayEnvFixture
        SessionState.default).result =
      .error (Error.api (ApiError.mk .WrongSessionToken none).code.as_int
        (ApiError.mk .WrongSessionToken none).error_message) ∧
     (Error.api (ApiError.mk .WrongSessionToken none).code.as_int
        (ApiError.mk .WrongSessionToken none).error_message
          = Error.CsrfTokenInvalid ∨
      Error.api (ApiError.mk .WrongSessionToken none).code.as_int
        (ApiError.mk .WrongSessionToken none).error_message
          = Error.SessionTokenInvalid)) := by
  have h := token_error_single_refresh_replay replayEnvFixture
    SessionState.default (ApiError.mk .CsrfTokenInvalid none) rfl (Or.inl rfl)
    { SessionState.default.invalidate_session with csrf_token := some "tok123" }
    "tok123" (by rfl)
  exact ⟨h.1, h.2 (ApiError.mk .WrongSessionToken none) rfl (Or.inr rfl)⟩

/-- Every token returned by the XML reading loop is non-empty: the reader
skips text events that are empty after trimming. -/
theorem extract_token_loop_ok_nonempty :
    ∀ (events : List XmlEvent) (inTok : Bool) (t : String),
      extract_token_loop events inTok = .ok t → t ≠ "" := by
  intro events
  induction events with
  | nil =>
    intro inTok t h
    exact absurd h (by simp [extract_token_loop])
  | cons ev rest ih =>
    intro inTok t h
    cases ev with
    | startTag name =>
      unfold extract_token_loop at h
      split at h
      · exact ih true t h
      · exact ih inTok t h
    | text content =>
      by_cases htr : strTrim content = ""
      · simp only [extract_token_loop, htr, if_true] at h
        exact ih inTok t h
      · simp only [extract_token_loop, htr, if_false] at h
        cases inTok with
        | true =>
          simp only [if_true] at h
          injection h with h'
          subst h'
          exact htr
        | false =>
          simp only [Bool.false_eq_true, if_false] at h
          exact ih false t h
    | endTag name =>
      unfold extract_token_loop at h
      split at h
      · exact ih false t h
      · exact ih inTok t h

/-- The heuristic meta-tag scan only returns contents longer than 20
characters, hence non-empty. -/
theorem find_heuristic_meta_nonempty :
    ∀ (metas : List MetaTag) (c : String),
      find_heuristic_meta metas = some c → c ≠ "" := by
  intro metas
  induction metas with
  | nil =>
    intro c h
    exact absurd h (by simp [find_heuristic_meta])
  | cons m rest ih =>
    intro c h
    unfold find_heuristic_meta at h
    split at h
    · rename_i content heq
      split at h
      · rename_i hcond
        injection h with h'
        subst h'
        intro hc
        rw [hc] at hcond
        simp at hcond
      · exact ih c h
    · exact ih c h

/-- Every token returned by the heuristic pass is non-empty. -/
theorem html_pass3_ok_nonempty (metas : List MetaTag) (t : String)
    (h : html_pass3 metas = .ok t) : t ≠ "" := by
  unfold html_pass3 at h
  split at h
  · rename_i content heq
    injection h with h'
    subst h'
    exact find_heuristic_meta_nonempty metas _ heq
  · exact absurd h (by simp)

/-- Every token returned by the second selector pass is non-empty. -/
theorem html_pass2_ok_nonempty (metas : List MetaTag) (t : String)
    (h : html_pass2 metas = .ok t) : t ≠ "" := by
  unfold html_pass2 at h
  split at h
  · rename_i m heq
    split at h
    · rename_i content heq2
      split at h
      · rename_i hne
        injection h with h'
        subst h'
        exact hne
      · exact html_pass3_ok_nonempty metas t h
    · exact html_pass3_ok_nonempty metas t h
  · exact html_pass3_ok_nonempty metas t h

/-- Every token returned by the HTML scrape is non-empty: the two selector
passes check non-emptiness explicitly and the heuristic pass requires more
than 20 characters. -/
theorem extract_token_from_html_ok_nonempty (metas : List MetaTag)
    (t : String) (h : extract_token_from_html metas = .ok t) : t ≠ "" := by
  unfold extract_token_from_html at h
  split at h
  · rename_i m heq
    split at h
    · rename_i content heq2
      split at h
      · rename_i hne
        injection h with h'
        subst h'
        exact hne
      · exact html_pass2_ok_nonempty metas t h
    · exact html_pass2_ok_nonempty metas t h
  · exact html_pass2_ok_nonempty metas t h

/-- Every token acquired through the XML token-endpoint stage is
non-empty. -/
theorem try_api_token_ok_nonempty (env : TokenEnv) (s : SessionState)
    (t : String) (h : (try_api_token env s).2 = .ok t) : t ≠ "" := by
  unfold try_api_token at h
  split at h
  · exact absurd h (by simp)
  · split at h
    · exact absurd h (by simp)
    · split at h
      · exact absurd h (by simp)
      · rename_i tok heq
        injection h with h'
        subst h'
        exact extract_token_loop_ok_nonempty _ false tok heq

/-- Every token acquired through the HTML fallback stage is non-empty. -/
theorem try_homepage_token_ok_nonempty (env : TokenEnv) (s : SessionState)
    (t : String) (h : (try_homepage_token env s).2 = .ok t) : t ≠ "" := by
  unfold try_homepage_token at h
  split at h
  · exact absurd h (by simp)
  · split at h
    · exact absurd h (by simp)
    · split at h
      · exact absurd h (by simp)
      · rename_i tok heq
        injection h with h'
        subst h'
        exact extract_token_from_html_ok_nonempty _ tok heq

/-- Every token returned by a forced refresh is non-empty. -/
theorem refresh_csrf_token_ok_nonempty (env : TokenEnv) (s : SessionState)
    (t : String) (h : (refresh_csrf_token env s).2 = .ok t) : t ≠ "" := by
  unfold refresh_csrf_token at h
  split at h
  · rename_i s2 tok heq
    injection h with h'
    subst h'
    exact try_api_token_ok_nonempty env s tok (by rw [heq])
  · rename_i s2 e heq
    exact try_homepage_token_ok_nonempty env s2 t h

/-- C9: `get_csrf_token` never returns an empty token — on the cache-hit
path (under the invariant that cached tokens are non-empty) as well as
after acquisition through the XML token-endpoint stage or any of the three
HTML meta-tag fallback branches. -/
theorem get_csrf_token_ok_nonempty (env : TokenEnv) (s : SessionState)
    (hinv : csrfInv s) (t : String)
    (h : (get_csrf_token env s).2 = .ok t) : t ≠ "" := by
  unfold get_csrf_token at h
  split at h
  · rename_i tok heq
    injection h with h'
    subst h'
    exact hinv tok heq
  · exact refresh_csrf_token_ok_nonempty env s t h

/-- Witness for `get_csrf_token_ok_nonempty`: from a fresh session against
the fixture token endpoint, the returned token `tok123` is non-empty. -/
theorem get_csrf_token_ok_nonempty_witness : "tok123" ≠ "" :=
  get_csrf_token_ok_nonempty tokenEnvFixture SessionState.default
    (fun tok htok => by simp [SessionState.default] at htok) "tok123" (by rfl)

/-- Each 32-bit word renders as exactly 8 hex characters. -/
theorem wordToHex_length (w : Nat) : (wordToHex w).length = 8 := by
  simp [wordToHex]

/-- Every SHA-256 hex digest is a 64-character string. -/
theorem sha256hex_length (msg : List Nat) : (sha256hex msg).length = 64 := by
  simp [sha256hex, String.length_append, wordToHex_length]

set_option maxRecDepth 100000 in
/-- C6: `encode_password` returns the standard base64 encoding of the raw
password's UTF-8 bytes when the login state's scheme code is `"0"` or
`"3"`, and the lowercase hexadecimal SHA-256 digest (always a 64-character
string) when the scheme code is `"4"` or any other unrecognized code; in
particular for password `"admin"` the SHA-256 output is the fixed
64-character lowercase hex digest, and the base64 output is `YWRtaW4=`. -/
theorem encode_password_spec :
    (∀ (password : String) (st : LoginState),
      st.password_type = "0" ∨ st.password_type = "3" →
      PasswordEncoder.encode_password password st =
        base64Encode (utf8Bytes password)) ∧
    (∀ (password : String) (st : LoginState),
      st.password_type ≠ "0" → st.password_type ≠ "3" →
      PasswordEncoder.encode_password password st =
        sha256hex (utf8Bytes password)) ∧
    (∀ password : String, (sha256hex (utf8Bytes password)).length = 64) ∧
    (∀ st : LoginState, st.password_type = "4" →
      PasswordEncoder.encode_password "admin" st =
        "8c6976e5b5410415bde908bd4dee15dfb167a9c873fc4bb8a81f6f2ab448a918") ∧
    (∀ st : LoginState, st.password_type = "0" →
      PasswordEncoder.encode_password "admin" st = "YWRtaW4=") := by
  have hb64 : ∀ (password : String) (st : LoginState),
      st.password_type = "0" ∨ st.password_type = "3" →
      PasswordEncoder.encode_password password st =
        base64Encode (utf8Bytes password) := by
    intro password st h
    rcases h with h | h <;>
      simp [PasswordEncoder.encode_password, LoginState.password_encoding, h,
        PasswordEncoder.encode_base64]
  have hsha : ∀ (password : String) (st : LoginState),
      st.password_type ≠ "0" → st.password_type ≠ "3" →
      PasswordEncoder.encode_password password st =
        sha256hex (utf8Bytes password) := by
    intro password st h0 h3
    by_cases h4 : st.password_type = "4" <;>
      simp [PasswordEncoder.encode_password, LoginState.password_encoding,
        h0, h3, h4, PasswordEncoder.encode_sha256]
  refine ⟨hb64, hsha, fun password => sha256hex_length _, ?_, ?_⟩
  · intro st h4
    rw [hsha "admin" st (by rw [h4]; decide) (by rw [h4]; decide)]
    decide
  · intro st h0
    rw [hb64 "admin" st (Or.inl h0)]
    decide

/-- Witness for `encode_password_spec`: a login state with scheme code
`"4"` makes `encode_password` produce the fixed SHA-256 digest of
`admin`. -/
theorem encode_password_spec_witness :
    PasswordEncoder.encode_password "admin"
        (mkTestLoginState "4" .Unlocked "0") =
      "8c6976e5b5410415bde908bd4dee15dfb167a9c873fc4bb8a81f6f2ab448a918" :=
  encode_password_spec.2.2.2.1 (mkTestLoginState "4" .Unlocked "0") rfl

end Dongle
